import Mathlib

/-!
Verification of the Forwardcaptionremover bot core against its design spec.

The Python sources `api_mock.py`, `handlers.py`, `config.py` and `main.py`
are embedded shallowly below.  The module `utils.py` (persistence of the
config record and the failed-task log, the rate limiter, the message
chunker, text cleanup) is referenced by the sources but its code is not
available; those operations are modelled from the spec, each marked with a
doc comment starting `Modelled from the spec:`.

State that Python keeps on disk (`bot_config.json`, `failed_tasks.json`)
or in module globals (`MOCK_MESSAGE_ID_COUNTER`) is collected in one
record `BotState`; every embedded operation maps a `BotState` to a new
`BotState` together with its result and the ordered trace of outbound
effects (`Event`) it produced.
-/

/-- `config.py`: `MAX_CAPTION_LENGTH = 4000`. -/
def MAX_CAPTION_LENGTH : Nat := 4000

/-- `config.py`: `MAX_FILE_SIZE_MB = 20`. -/
def MAX_FILE_SIZE_MB : Nat := 20

/-- The byte bound `MAX_FILE_SIZE_MB * 1024 * 1024` used by
`safely_extract_content` in `handlers.py`. -/
def maxFileSizeBytes : Nat := MAX_FILE_SIZE_MB * 1024 * 1024

/-- Python `str(x)` on an optional integer: `str(None) = "None"`,
otherwise the decimal rendering (used by the owner check in
`handle_incoming_message`). -/
def pyStr : Option Int → String
  | none => "None"
  | some n => toString n

/-- Python truthiness-based `a or b or ""` on two optional strings
(`message.text or message.caption or ""` in `safely_extract_content`):
the first operand that is neither `None` nor empty, else `""`. -/
def pyOrStr : Option String → Option String → String
  | some t, some c => if t = "" then (if c = "" then "" else c) else t
  | some t, none => t
  | none, some c => if c = "" then "" else c
  | none, none => ""

/-- Python `s.split()` with no separator: split on runs of whitespace,
dropping empty pieces. -/
def pySplit (s : String) : List String :=
  (s.split (fun c => c.isWhitespace)).filter (fun w => w ≠ "")

/-- Python `s.split(maxsplit=1)[1]`: the remainder of `s` after the first
whitespace-delimited token and the whitespace following it.  The callers
in `handlers.py` only evaluate it under the guard `len(s.split()) > 1`. -/
def pySplitRest (s : String) : String :=
  String.mk
    ((((s.toList.dropWhile (fun c => c.isWhitespace)).dropWhile
        (fun c => ¬ c.isWhitespace)).dropWhile (fun c => c.isWhitespace)))

/-- Decimal value of a digit list (most significant first). -/
def digitsVal (ds : List Char) : Nat :=
  ds.foldl (fun acc c => acc * 10 + (c.toNat - '0'.toNat)) 0

/-- Python `int(s)` on a decimal string: strip surrounding whitespace,
optional sign, then digits; any other shape raises `ValueError`,
modelled as `none`. -/
def pyParseInt (s : String) : Option Int :=
  let cs := (s.toList.dropWhile (fun c => c.isWhitespace)).reverse
  let cs := (cs.dropWhile (fun c => c.isWhitespace)).reverse
  match cs with
  | [] => none
  | '-' :: ds =>
      if ds ≠ [] ∧ ds.all (fun c => c.isDigit) then some (-(digitsVal ds : Int))
      else none
  | '+' :: ds =>
      if ds ≠ [] ∧ ds.all (fun c => c.isDigit) then some ((digitsVal ds : Int))
      else none
  | ds =>
      if ds.all (fun c => c.isDigit) then some ((digitsVal ds : Int))
      else none

/-- Index (into the window) just past the last whitespace character, if
the window holds any whitespace: the preferred cut point of the chunker. -/
def lastBreakCut (window : List Char) : Option Nat :=
  ((window.enum.filter (fun p => p.2.isWhitespace)).map (fun p => p.1 + 1)).getLast?

/-- Modelled from the spec: the Message Chunker `split(text, max_length)`
of `utils.split_long_message` (code not available).  Produces an ordered
sequence of segments each at most `maxLen` long whose concatenation is
the input; a cut is preferred at the whitespace boundary nearest to but
not past the limit, falling back to a hard cut; input of length `≤
maxLen` (in particular the empty string) is a single segment. -/
def splitChunksAux (maxLen : Nat) (cs : List Char) : List (List Char) :=
  if cs.length ≤ maxLen ∨ maxLen = 0 then [cs]
  else
    let window := cs.take maxLen
    let cut :=
      max 1 (match lastBreakCut window with
             | some i => i
             | none => maxLen)
    cs.take cut :: splitChunksAux maxLen (cs.drop cut)
termination_by cs.length
decreasing_by
  simp only [List.length_drop]
  omega

/-- Modelled from the spec: `utils.split_long_message(text)` splits at the
provider-safe limit `MAX_CAPTION_LENGTH`. -/
def split_long_message (text : String) : List String :=
  (splitChunksAux MAX_CAPTION_LENGTH text.toList).map (fun cs => String.mk cs)

theorem splitChunksAux_ne_nil (maxLen : Nat) (cs : List Char) :
    splitChunksAux maxLen cs ≠ [] := by
  unfold splitChunksAux
  split <;> simp

theorem split_long_message_ne_nil (text : String) :
    split_long_message text ≠ [] := by
  unfold split_long_message
  simp [splitChunksAux_ne_nil]

/-- The persisted config record (`bot_config.json`, spec §6): toggles,
cleanup phrases, and the wake-up link pointer. -/
structure Config where
  stickerBlockEnabled : Bool
  photoVideoOnlyEnabled : Bool
  cleanupStrings : List String
  lastLinkMessageId : Option Nat
  deriving Repr, DecidableEq

/-- One record of the persisted failed-task log (`failed_tasks.json`),
with the field set `{timestamp, chat_id, message_id, reason,
content_preview}` written by `simulate_task_execution` and
`add_failed_task_manual`. -/
structure FailedTask where
  timestamp : String
  chat_id : Int
  message_id : Nat
  reason : String
  content_preview : String
  deriving Repr, DecidableEq, Inhabited

/-- The program state threaded through every embedded operation: the
persisted config record, the persisted failed-task log, the mock
message-id counter `MOCK_MESSAGE_ID_COUNTER` of `api_mock.py`, and the
current clock reading as formatted by
`datetime.now().strftime("%Y-%m-%d %H:%M:%S")`. -/
structure BotState where
  config : Config
  failedTasks : List FailedTask
  counter : Nat
  now : String
  deriving Repr, DecidableEq

/-- One outbound effect.  `acquire b` is a rate-limiter acquisition
(`enforce_api_rate_limit(internal=b)`); the `api*` events are the
transport calls of the dispatch facade in `api_mock.py`; the `bot*` and
`queryAnswer` events are the direct `context.bot.*` / `query.answer`
calls made by `handlers.py`. -/
inductive Event where
  | acquire (internal : Bool)
  | apiSendChunk (chat : Int) (msgId : Nat) (chunk : String)
  | apiDelete (chat : Int) (msgId : Nat)
  | apiSendDocument (chat : Int) (filename : String)
  | apiLeaveChat (chat : Int)
  | apiSendKeyboard (chat : Int) (msgId : Nat) (text : String)
  | apiEditMarkup (chat : Int) (msgId : Nat)
  | botSend (chat : Int) (text : String)
  | botSendMenu (chat : Int) (stickerOn : Bool) (pvOn : Bool)
  | botSendFailedReport (chat : Int) (tasks : List FailedTask)
  | botSendCleanupList (chat : Int) (strings : List String)
  | botSendLog (chat : Int)
  | queryAnswer (text : String)
  deriving Repr, DecidableEq

/-- An event is a transport delegation (anything but a rate-limiter
acquisition). -/
def Event.isTransport : Event → Bool
  | .acquire _ => false
  | _ => true

/-- Modelled from the spec: `utils.get_config_value("LAST_LINK_MESSAGE_ID")`
(code not available); the Config Store `get` for the wake-up link key,
returning the stored optional message id (default absent). -/
def get_last_link (st : BotState) : Option Nat :=
  st.config.lastLinkMessageId

/-- Modelled from the spec: `utils.set_config_value("LAST_LINK_MESSAGE_ID", v)`;
the Config Store `set`, persisted synchronously. -/
def set_last_link (st : BotState) (v : Nat) : BotState :=
  { st with config := { st.config with lastLinkMessageId := some v } }

/-- The two boolean setting keys toggled through `SETTINGS_MAP` in
`handlers.py`. -/
inductive BoolKey where
  | stickerBlock
  | photoVideoOnly
  deriving Repr, DecidableEq

/-- Modelled from the spec: `utils.get_config_value` on a boolean toggle
key (default `false`). -/
def get_bool_config (st : BotState) : BoolKey → Bool
  | .stickerBlock => st.config.stickerBlockEnabled
  | .photoVideoOnly => st.config.photoVideoOnlyEnabled

/-- Modelled from the spec: `utils.set_config_value` on a boolean toggle
key, persisted synchronously. -/
def set_bool_config (st : BotState) : BoolKey → Bool → BotState
  | .stickerBlock, v =>
      { st with config := { st.config with stickerBlockEnabled := v } }
  | .photoVideoOnly, v =>
      { st with config := { st.config with photoVideoOnlyEnabled := v } }

/-- Modelled from the spec: `utils.load_config()`; the Config Store
`loadAll` full snapshot. -/
def load_config (st : BotState) : Config :=
  st.config

/-- Modelled from the spec: `utils.save_config(c)`; the Config Store
`saveAll`, rewriting the whole persisted record. -/
def save_config (st : BotState) (c : Config) : BotState :=
  { st with config := c }

/-- Modelled from the spec: `utils.load_failed_tasks()`; the Failed-Task
Log `list`. -/
def load_failed_tasks (st : BotState) : List FailedTask :=
  st.failedTasks

/-- Modelled from the spec: `utils.save_failed_tasks(ts)`; the Failed-Task
Log `rewriteFrom`, rewriting the whole persisted sequence. -/
def save_failed_tasks (st : BotState) (ts : List FailedTask) : BotState :=
  { st with failedTasks := ts }

/-- Modelled from the spec: `utils.clean_message_text(text)` (code not
available); strips every configured cleanup phrase from the text. -/
def clean_message_text (st : BotState) (text : String) : String :=
  st.config.cleanupStrings.foldl (fun acc p => acc.replace p "") text

/-- `api_mock.get_next_mock_message_id`: increment and return the mock
message-id counter. -/
def get_next_mock_message_id (st : BotState) : Nat × BotState :=
  (st.counter + 1, { st with counter := st.counter + 1 })

/-- The per-chunk loop body of `api_mock.api_send_message`: one simulated
transport call per chunk, collecting the transport-assigned ids. -/
def sendChunks (chat : Int) : List String → BotState → List Nat × BotState × List Event
  | [], st => ([], st, [])
  | c :: cs, st =>
      let (msgId, st1) := get_next_mock_message_id st
      let (ids, st2, evs) := sendChunks chat cs st1
      (msgId :: ids, st2, .apiSendChunk chat msgId c :: evs)

/-- `api_mock.api_send_message(chat_id, text)`: acquire the primary rate
limit, split the text, send each chunk, return the id of the last chunk
(`message_ids[-1] if message_ids else None`). -/
def api_send_message (chat : Int) (text : String) (st : BotState) :
    Option Nat × BotState × List Event :=
  let chunks := split_long_message text
  let (ids, st1, evs) := sendChunks chat chunks st
  (ids.getLast?, st1, .acquire false :: evs)

/-- `api_mock.api_delete_message(chat_id, message_id)`: acquire the
internal rate limit and delete.  The source mock always returns `True`;
per spec §6 the transport collaborator may fail, so the outcome is the
parameter `deleteOk` (`deleteOk = true` is the literal source). -/
def api_delete_message (deleteOk : Bool) (chat : Int) (msgId : Nat) (st : BotState) :
    Bool × BotState × List Event :=
  (deleteOk, st, [.acquire true, .apiDelete chat msgId])

/-- `api_mock.api_send_document(chat_id, file_content, filename)`. -/
def api_send_document (chat : Int) (filename : String) (st : BotState) :
    Bool × BotState × List Event :=
  (true, st, [.acquire false, .apiSendDocument chat filename])

/-- `api_mock.api_leave_chat(chat_id)`. -/
def api_leave_chat (chat : Int) (st : BotState) :
    Bool × BotState × List Event :=
  (true, st, [.acquire true, .apiLeaveChat chat])

/-- `api_mock.api_send_inline_keyboard(chat_id, text, reply_markup)`:
acquire the primary rate limit, assign the next message id, send the
button message, return its id. -/
def api_send_inline_keyboard (chat : Int) (text : String) (st : BotState) :
    Nat × BotState × List Event :=
  let (msgId, st1) := get_next_mock_message_id st
  (msgId, st1, [.acquire false, .apiSendKeyboard chat msgId text])

/-- `api_mock.api_edit_message_reply_markup(chat_id, message_id,
reply_markup)`. -/
def api_edit_message_reply_markup (chat : Int) (msgId : Nat) (st : BotState) :
    Bool × BotState × List Event :=
  (true, st, [.acquire true, .apiEditMarkup chat msgId])

/-- The fixed wake-up payload of `send_wake_up_link`. -/
def wakeUpLinkText : String :=
  "😴 **BOT SLEEPING** 😴\n\n" ++
  "I have completed all pending tasks and will go dormant shortly.\n" ++
  "To wake me up instantly when you need me again, please click the link below."

/-- `api_mock.send_wake_up_link(chat_id)`: read the stored link pointer;
if it is set (Python-truthy, i.e. not `None` and not `0`) delete that
message, discarding the delete result; send the new button message; store
its id; return it.  `deleteOk` is the transport outcome of the delete
step (see `api_delete_message`). -/
def send_wake_up_link (deleteOk : Bool) (chat : Int) (st : BotState) :
    Nat × BotState × List Event :=
  let lastLinkId := get_last_link st
  let (st1, evs1) :=
    match lastLinkId with
    | some lid =>
        if lid ≠ 0 then
          let (_ok, st', e) := api_delete_message deleteOk chat lid st
          (st', e)
        else (st, [])
    | none => (st, [])
  let (newMessageId, st2, evs2) := api_send_inline_keyboard chat wakeUpLinkText st1
  let st3 := set_last_link st2 newMessageId
  (newMessageId, st3, evs1 ++ evs2)

/-- `api_mock.simulate_task_execution(chat_id, message_id, text,
is_large_file)`: resource check first (immediate failure report, return
`False`); then cleanup; then, when the simulated transient fault fires
(`failRoll` models `random.random() < 0.1`), append a FailedTask record,
notify the operator and return `False`; otherwise send the success
message and return `True`. -/
def simulate_task_execution (failRoll : Bool) (chat : Int) (msgId : Nat)
    (text : String) (isLargeFile : Bool) (st : BotState) :
    Bool × BotState × List Event :=
  if isLargeFile then
    let reason := "RESOURCE EXHAUSTION BLOCK: Incoming file exceeds " ++
      toString MAX_FILE_SIZE_MB ++ "MB safety limit."
    let (_id, st1, evs) := api_send_message chat ("🛑 **FAILURE:** " ++ reason) st
    (false, st1, evs)
  else
    let cleanedText := clean_message_text st text
    if failRoll then
      let reason := "Simulated External API Timeout or Processing Error."
      let tasks := load_failed_tasks st
      let st1 := save_failed_tasks st (tasks ++ [{
        timestamp := st.now
        chat_id := chat
        message_id := msgId
        reason := reason
        content_preview :=
          if cleanedText ≠ "" then cleanedText.take 30 ++ "..." else "[No content]" }])
      let (_id, st2, evs) := api_send_message chat
        ("⚠️ **Task failed.** Reason: " ++ reason ++
         ". It has been added to the `/failed` list.") st1
      (false, st2, evs)
    else
      let finalText := "✅ **TASK COMPLETE**\nOriginal Content:\n\n" ++ cleanedText
      let (_id, st1, evs) := api_send_message chat finalText st
      (true, st1, evs)

/-- A Telegram message as the handler sees it: chat id, optional sender
id, optional text and caption, sticker presence, and for each media kind
the file size of the attachment when present (`photoSize` is the size of
the last element of `message.photo`). -/
structure Message where
  chat_id : Int
  from_user_id : Option Int
  text : Option String
  caption : Option String
  hasSticker : Bool
  photoSize : Option Nat
  videoSize : Option Nat
  documentSize : Option Nat
  deriving Repr, DecidableEq

/-- The six-tuple returned by `handlers.safely_extract_content(message)`:
text (`message.text or message.caption or ""`), the four media flags, and
the large-file flag comparing each present attachment size against
`MAX_FILE_SIZE_MB * 1024 * 1024`. -/
def safely_extract_content (m : Message) :
    String × Bool × Bool × Bool × Bool × Bool :=
  let text := pyOrStr m.text m.caption
  let is_sticker := m.hasSticker
  let is_photo := m.photoSize.isSome
  let is_video := m.videoSize.isSome
  let is_document := m.documentSize.isSome
  let is_large_file :=
    (match m.documentSize with | some s => decide (s > maxFileSizeBytes) | none => false)
    || (match m.videoSize with | some s => decide (s > maxFileSizeBytes) | none => false)
    || (match m.photoSize with | some s => decide (s > maxFileSizeBytes) | none => false)
  (text, is_sticker, is_photo, is_video, is_document, is_large_file)

/-- `handlers.check_allowed_message_type`: reject stickers when the
sticker block is on; under Photo/Video Only mode accept only photos and
videos, messaging the operator unless the rejected text is a command;
otherwise accept everything. -/
def check_allowed_message_type (chat : Int) (is_sticker is_photo is_video _is_document : Bool)
    (text : String) (st : BotState) : Bool × List Event :=
  if is_sticker && get_bool_config st .stickerBlock then
    (false, [.botSend chat "🚫 Sticker processing is currently OFF. Please disable in /settings."])
  else if get_bool_config st .photoVideoOnly then
    if is_photo || is_video then (true, [])
    else
      (false,
        if ¬ text.startsWith "/" then
          [.botSend chat ("🚫 **Filter Active:** " ++
            "File/Video Only mode is ON. Ignoring non-photo/video content (e.g., text, document, poll, GIF).")]
        else [])
  else (true, [])

/-- `handlers.send_settings_menu(chat_id, context)`: read both toggles
and send the settings menu with their statuses. -/
def send_settings_menu (chat : Int) (st : BotState) : List Event :=
  [.botSendMenu chat (get_bool_config st .stickerBlock) (get_bool_config st .photoVideoOnly)]

/-- `handlers.send_failed_tasks_report(chat_id, context)`: clean-list
message when empty, otherwise the indexed report over the stored tasks. -/
def send_failed_tasks_report (chat : Int) (st : BotState) : List Event :=
  let tasks := load_failed_tasks st
  if tasks = [] then
    [.botSend chat "🎉 **Failed Task List is Clean!** No tasks are awaiting manual retry."]
  else
    [.botSendFailedReport chat tasks]

/-- `handlers.add_failed_task_manual(chat_id, content, context)`: append
a `MANUAL ENTRY` record (message id 0, 30-character content preview) to
the failed-task log and confirm to the operator. -/
def add_failed_task_manual (chat : Int) (content : String) (st : BotState) :
    BotState × List Event :=
  let tasks := load_failed_tasks st
  let st1 := save_failed_tasks st (tasks ++ [{
    timestamp := st.now
    chat_id := chat
    message_id := 0
    reason := "MANUAL ENTRY"
    content_preview := content.take 30 ++ "..." }])
  (st1, [.botSend chat ("✅ Manual task added: `" ++ content.take 30 ++ "...`")])

/-- `handlers.remove_failed_task(chat_id, index_str, context)`: parse the
1-based index (`ValueError` gives the format message), pop the task at
`index - 1` when `0 <= index - 1 < len(tasks)` and persist, otherwise
report an invalid index without touching the log. -/
def remove_failed_task (chat : Int) (indexStr : String) (st : BotState) :
    BotState × List Event :=
  match pyParseInt indexStr with
  | none =>
      (st, [.botSend chat "❌ Invalid format. Please provide a valid number (e.g., `/remove_task 3`)."])
  | some n =>
      let index : Int := n - 1
      let tasks := load_failed_tasks st
      if 0 ≤ index ∧ index < tasks.length then
        let removedTask := tasks.getD index.toNat default
        let st1 := save_failed_tasks st (tasks.eraseIdx index.toNat)
        (st1, [.botSend chat ("🗑️ Task #" ++ toString (index + 1) ++
          " removed successfully. Reason: " ++ removedTask.reason ++ ".")])
      else
        (st, [.botSend chat ("❌ Invalid index. Please use a number from the `/failed` list (1 to " ++
          toString tasks.length ++ ").")])

/-- `handlers.send_cleanup_list(chat_id, context)`. -/
def send_cleanup_list (chat : Int) (st : BotState) : List Event :=
  let cleanupStrings := st.config.cleanupStrings
  if cleanupStrings = [] then
    [.botSend chat "🧹 **Cleanup List is Empty!** No phrases will be stripped."]
  else
    [.botSendCleanupList chat cleanupStrings]

/-- `handlers.add_cleanup_string(chat_id, phrase, context)`: load the
whole config record, append the phrase to `CLEANUP_STRINGS`, save the
record back, confirm. -/
def add_cleanup_string (chat : Int) (phrase : String) (st : BotState) :
    BotState × List Event :=
  let config := load_config st
  let config1 := { config with cleanupStrings := config.cleanupStrings ++ [phrase] }
  let st1 := save_config st config1
  (st1, [.botSend chat ("✅ Cleanup string added: `" ++ phrase ++ "`")])

/-- `handlers.remove_cleanup_string(chat_id, index_str, context)`: same
index discipline as `remove_failed_task`, over the cleanup list inside
the whole-record read-modify-write. -/
def remove_cleanup_string (chat : Int) (indexStr : String) (st : BotState) :
    BotState × List Event :=
  match pyParseInt indexStr with
  | none =>
      (st, [.botSend chat "❌ Invalid format. Please provide a valid number (e.g., `/remove_cleanup 2`)."])
  | some n =>
      let index : Int := n - 1
      let config := load_config st
      let cleanupList := config.cleanupStrings
      if 0 ≤ index ∧ index < cleanupList.length then
        let removedPhrase := cleanupList.getD index.toNat ""
        let st1 := save_config st { config with cleanupStrings := cleanupList.eraseIdx index.toNat }
        (st1, [.botSend chat ("🗑️ Cleanup string #" ++ toString (index + 1) ++
          " removed: `" ++ removedPhrase ++ "`.")])
      else
        (st, [.botSend chat ("❌ Invalid index. Use a number from the `/list_cleanup` list (1 to " ++
          toString cleanupList.length ++ ").")])

/-- `handlers.send_log_file(chat_id, context)`: reads the on-disk log and
sends it as a document; the file system is outside the model, so the
whole operation is one outbound event. -/
def send_log_file (chat : Int) (_st : BotState) : List Event :=
  [.botSendLog chat]

/-- The argument extraction `text.split(maxsplit=1)[1] if
len(text.split()) > 1 else None` used by the `/add_task`,
`/remove_task`, `/add_cleanup` and `/remove_cleanup` branches. -/
def commandArg (text : String) : Option String :=
  if (pySplit text).length > 1 then some (pySplitRest text) else none

/-- The `/start` and `/help` welcome text of `handle_incoming_message`,
as built from the loaded config snapshot. -/
def welcomeText (config : Config) : String :=
  let status_pv := if config.photoVideoOnlyEnabled then "ON" else "OFF"
  let status_sticker := if config.stickerBlockEnabled then "ON" else "OFF"
  "🤖 **Private Bot Status**\n\n" ++
  "**File Filter:** `" ++ status_pv ++ "` (Only Photo/Video allowed)\n" ++
  "**Sticker Block:** `" ++ status_sticker ++ "`\n" ++
  "**Cleanup Phrases:** `" ++ toString config.cleanupStrings.length ++ "`\n\n" ++
  "--- **Commands** ---\n" ++
  "- `/run_task [content]`\n" ++
  "- `/finish` (Sends cleanup confirmation)\n" ++
  "- `/settings` (Manage toggles)\n" ++
  "- `/failed` (Retry list)\n" ++
  "- `/list_cleanup` / `/add_cleanup`\n" ++
  "- `/log`\n" ++
  "- `/help`"

/-- The `# --- COMMAND ROUTING ---` section of
`handlers.handle_incoming_message`: dispatch on the leading command token
of the (already filtered, not oversized) message. -/
def route_command (chat : Int) (text : String) (command : Option String) (st : BotState) :
    BotState × List Event :=
  if command = some "/start" ∨ command = some "/help" then
    let config := load_config st
    (st, [.botSend chat (welcomeText config)])
  else if command = some "/settings" then
    (st, send_settings_menu chat st)
  else if command = some "/run_task" then
    (st, [.botSend chat "✅ Run Task: Processed!"])
  else if command = some "/finish" then
    (st, [.botSend chat "Batch complete. I\x27m now awaiting new tasks or going dormant."])
  else if command = some "/log" then
    (st, send_log_file chat st)
  else if command = some "/failed" then
    (st, send_failed_tasks_report chat st)
  else if command = some "/add_task" then
    match commandArg text with
    | some content => add_failed_task_manual chat content st
    | none => (st, [.botSend chat "❌ Usage: `/add_task [content]`"])
  else if command = some "/remove_task" then
    match commandArg text with
    | some indexStr => remove_failed_task chat indexStr st
    | none => (st, [.botSend chat "❌ Usage: `/remove_task [number]`"])
  else if command = some "/list_cleanup" then
    (st, send_cleanup_list chat st)
  else if command = some "/add_cleanup" then
    match commandArg text with
    | some phrase => add_cleanup_string chat phrase st
    | none => (st, [.botSend chat "❌ Usage: `/add_cleanup [phrase to remove]`"])
  else if command = some "/remove_cleanup" then
    match commandArg text with
    | some indexStr => remove_cleanup_string chat indexStr st
    | none => (st, [.botSend chat "❌ Usage: `/remove_cleanup [number]`"])
  else
    (st, [.botSend chat "✅ Message/task processed."])

/-- `handlers.handle_incoming_message(update, context)` with
`BOT_OWNER_ID` passed in as `owner`: reject non-owner senders before
anything else; extract content; apply the message-type filter; on an
oversized payload report the failure and record a manual failed task;
otherwise route on the leading command token. -/
def handle_incoming_message (owner : String) (m : Message) (st : BotState) :
    BotState × List Event :=
  let chat := m.chat_id
  if pyStr m.from_user_id ≠ owner then
    (st, [.botSend chat "🔒 Unauthorized access denied."])
  else
    let (text, is_sticker, is_photo, is_video, is_document, is_large_file) :=
      safely_extract_content m
    let command :=
      if text ≠ "" ∧ text.startsWith "/" then
        some ((pySplit text).headD "").toLower
      else none
    let (allowed, filterEvs) :=
      check_allowed_message_type chat is_sticker is_photo is_video is_document text st
    if ¬ allowed then (st, filterEvs)
    else if is_large_file then
      let failEv : Event := .botSend chat ("🛑 **FAILURE:** Incoming file exceeds " ++
        toString MAX_FILE_SIZE_MB ++ "MB safety limit.")
      let (st1, evs) := add_failed_task_manual chat
        (if text ≠ "" then text else "LARGE FILE BLOCKED") st
      (st1, filterEvs ++ [failEv] ++ evs)
    else
      let (st1, evs) := route_command chat text command st
      (st1, filterEvs ++ evs)

/-- A callback query (button click) as `handle_callback_query` sees it. -/
structure CallbackQuery where
  chat_id : Int
  data : Option String
  deriving Repr, DecidableEq

/-- The key lookup `SETTINGS_MAP.get(data, {}).get("key")` of
`handlers.py`. -/
def settingsMapKey : String → Option BoolKey
  | "toggle_stickers" => some .stickerBlock
  | "toggle_photo_video" => some .photoVideoOnly
  | _ => none

/-- The display name `SETTINGS_MAP[data]["name"]`. -/
def settingsMapName : String → String
  | "toggle_stickers" => "Stickers"
  | "toggle_photo_video" => "Photo/Video Only"
  | _ => ""

/-- `handlers.handle_callback_query(update, context)`: no-op on a missing
or empty (Python-falsy) payload; unknown payloads are only acknowledged;
a known payload toggles its boolean config key, acknowledges with the new
status and refreshes the settings menu. -/
def handle_callback_query (q : CallbackQuery) (st : BotState) :
    BotState × List Event :=
  match q.data with
  | none => (st, [])
  | some data =>
      if data = "" then (st, [])
      else
        match settingsMapKey data with
        | none => (st, [.queryAnswer "Unknown setting"])
        | some key =>
            let current := get_bool_config st key
            let st1 := set_bool_config st key (!current)
            (st1, [.queryAnswer (settingsMapName data ++ " set to " ++
              (if !current then "ON" else "OFF"))] ++ send_settings_menu q.chat_id st1)

/-- Closed form of the chunk-sending loop: ids are consecutive from
`counter + 1`, only the counter changes, and the trace pairs each id with
its chunk in sequence order. -/
theorem sendChunks_eq (chat : Int) (cs : List String) (st : BotState) :
    sendChunks chat cs st =
      (List.range' (st.counter + 1) cs.length,
       { st with counter := st.counter + cs.length },
       ((List.range' (st.counter + 1) cs.length).zip cs).map
         (fun p => Event.apiSendChunk chat p.1 p.2)) := by
  induction cs generalizing st with
  | nil => simp [sendChunks]
  | cons c cs ih =>
      simp only [sendChunks, get_next_mock_message_id, ih, List.length_cons,
        List.range'_succ, List.zip_cons_cons, List.map_cons]
      have h1 : st.counter + 1 + cs.length = st.counter + (cs.length + 1) := by omega
      rw [h1]

/-- Closed form of `api_send_message`: the trace is one primary acquire
followed by one transport send per chunk in order, and the returned id is
that of the final chunk, always present. -/
theorem api_send_message_eq (chat : Int) (text : String) (st : BotState) :
    api_send_message chat text st =
      (some (st.counter + (split_long_message text).length),
       { st with counter := st.counter + (split_long_message text).length },
       Event.acquire false ::
         ((List.range' (st.counter + 1) (split_long_message text).length).zip
            (split_long_message text)).map
           (fun p => Event.apiSendChunk chat p.1 p.2)) := by
  have hne := split_long_message_ne_nil text
  have hlen : (split_long_message text).length ≠ 0 := by
    simpa [List.length_eq_zero] using hne
  simp only [api_send_message, sendChunks_eq]
  rw [List.getLast?_range', if_neg hlen]
  congr 2
  omega

/-- C4: for every chat and text, `api_send_message` first splits the text
with the chunker, then issues exactly one transport send per chunk in
sequence order (ids consecutive from the counter), and returns the
identifier of the final chunk; since the chunker yields at least one
chunk on every input, the returned identifier is never `none`. -/
theorem sendText_sends_every_chunk_and_returns_last_id
    (chat : Int) (text : String) (st : BotState) :
    api_send_message chat text st =
      (some (st.counter + (split_long_message text).length),
       { st with counter := st.counter + (split_long_message text).length },
       Event.acquire false ::
         ((List.range' (st.counter + 1) (split_long_message text).length).zip
            (split_long_message text)).map
           (fun p => Event.apiSendChunk chat p.1 p.2))
    ∧ split_long_message text ≠ []
    ∧ (api_send_message chat text st).1 ≠ none := by
  refine ⟨api_send_message_eq chat text st, split_long_message_ne_nil text, ?_⟩
  rw [api_send_message_eq]
  simp

/-- C2: an index-based removal with a parsed 1-based index outside
`[1, length]` reports the invalid-index validation message and leaves the
persisted failed-task log (and the rest of the state) exactly unchanged. -/
theorem remove_failed_task_out_of_range_keeps_log
    (chat : Int) (indexStr : String) (n : Int) (st : BotState)
    (hp : pyParseInt indexStr = some n)
    (h : n < 1 ∨ n > st.failedTasks.length) :
    remove_failed_task chat indexStr st =
      (st, [.botSend chat ("❌ Invalid index. Please use a number from the `/failed` list (1 to " ++
        toString st.failedTasks.length ++ ").")]) := by
  unfold remove_failed_task
  rw [hp]
  simp only [load_failed_tasks]
  rw [if_neg]
  omega

/-- Witness for C2: removing index 0 from a one-element log is rejected
and the log survives. -/
theorem remove_failed_task_out_of_range_witness :
    remove_failed_task 7 "0"
        ⟨⟨false, false, [], none⟩, [⟨"t", 7, 3, "r", "p"⟩], 1000, "t"⟩ =
      (⟨⟨false, false, [], none⟩, [⟨"t", 7, 3, "r", "p"⟩], 1000, "t"⟩,
       [.botSend 7 "❌ Invalid index. Please use a number from the `/failed` list (1 to 1)."]) :=
  remove_failed_task_out_of_range_keeps_log 7 "0" 0
    ⟨⟨false, false, [], none⟩, [⟨"t", 7, 3, "r", "p"⟩], 1000, "t"⟩
    (by decide) (Or.inl (by decide))

/-- The end-to-end scenario of the failed-task log: three manual
appends followed by removal of index 2 keep the first and third tasks in
order. -/
theorem append3_remove2_scenario (chat : Int) (a b c : String) (st0 : BotState)
    (h0 : st0.failedTasks = []) :
    (remove_failed_task chat "2"
      (add_failed_task_manual chat c
        (add_failed_task_manual chat b
          (add_failed_task_manual chat a st0).1).1).1).1.failedTasks =
    [{ timestamp := st0.now, chat_id := chat, message_id := 0,
       reason := "MANUAL ENTRY", content_preview := a.take 30 ++ "..." },
     { timestamp := st0.now, chat_id := chat, message_id := 0,
       reason := "MANUAL ENTRY", content_preview := c.take 30 ++ "..." }] := by
  have hp2 : pyParseInt "2" = some 2 := by decide
  unfold remove_failed_task
  rw [hp2]
  simp [add_failed_task_manual, load_failed_tasks, save_failed_tasks, h0]

/-- C3: an index-based removal with a valid 1-based index `i` removes
exactly the task at position `i` (the rest keep their relative order and
the log shrinks by one), reports the reason of that task, and in particular
appending three tasks and removing index 2 leaves the original first and
third tasks. -/
theorem remove_failed_task_valid_removes_ith
    (chat : Int) (indexStr : String) (i : Nat) (st : BotState)
    (hp : pyParseInt indexStr = some (i : Int))
    (h1 : 1 ≤ i) (h2 : i ≤ st.failedTasks.length) :
    (remove_failed_task chat indexStr st).1.failedTasks =
        st.failedTasks.take (i - 1) ++ st.failedTasks.drop i
    ∧ (remove_failed_task chat indexStr st).1.failedTasks.length =
        st.failedTasks.length - 1
    ∧ (remove_failed_task chat indexStr st).1.config = st.config
    ∧ (remove_failed_task chat indexStr st).2 =
        [.botSend chat ("🗑️ Task #" ++ toString (i : Int) ++
          " removed successfully. Reason: " ++
          (st.failedTasks.getD (i - 1) default).reason ++ ".")]
    ∧ (∀ (a b c : String) (st0 : BotState), st0.failedTasks = [] →
        (remove_failed_task chat "2"
          (add_failed_task_manual chat c
            (add_failed_task_manual chat b
              (add_failed_task_manual chat a st0).1).1).1).1.failedTasks =
        [{ timestamp := st0.now, chat_id := chat, message_id := 0,
           reason := "MANUAL ENTRY", content_preview := a.take 30 ++ "..." },
         { timestamp := st0.now, chat_id := chat, message_id := 0,
           reason := "MANUAL ENTRY", content_preview := c.take 30 ++ "..." }]) := by
  have hcond : (0 : Int) ≤ (i : Int) - 1 ∧ (i : Int) - 1 < (st.failedTasks.length : Int) := by
    omega
  have htn : ((i : Int) - 1).toNat = i - 1 := by omega
  have hone : (i : Int) - 1 + 1 = (i : Int) := by omega
  have key : remove_failed_task chat indexStr st =
      ({ st with failedTasks := st.failedTasks.eraseIdx (i - 1) },
       [.botSend chat ("🗑️ Task #" ++ toString (i : Int) ++
          " removed successfully. Reason: " ++
          (st.failedTasks.getD (i - 1) default).reason ++ ".")]) := by
    unfold remove_failed_task
    rw [hp]
    simp only [load_failed_tasks, save_failed_tasks]
    rw [if_pos hcond, htn, hone]
  refine ⟨?_, ?_, ?_, ?_, fun a b c st0 h0 => append3_remove2_scenario chat a b c st0 h0⟩
  · rw [key]
    show st.failedTasks.eraseIdx (i - 1) = _
    rw [List.eraseIdx_eq_take_drop_succ]
    have hsucc : i - 1 + 1 = i := by omega
    rw [hsucc]
  · rw [key]
    show (st.failedTasks.eraseIdx (i - 1)).length = _
    exact List.length_eraseIdx_of_lt (by omega)
  · rw [key]
  · rw [key]

/-- Witness for C3: removing index 1 from a one-element log empties it
and reports that task. -/
theorem remove_failed_task_valid_witness :
    (remove_failed_task 7 "1"
        ⟨⟨false, false, [], none⟩, [⟨"t", 7, 3, "r", "p"⟩], 1000, "t"⟩).1.failedTasks = [] := by
  have h := remove_failed_task_valid_removes_ith 7 "1" 1
    ⟨⟨false, false, [], none⟩, [⟨"t", 7, 3, "r", "p"⟩], 1000, "t"⟩
    (by decide) (by decide) (by decide)
  simpa using h.1

/-- C1: from a `LinkActive(oldId)` state, the wake-up send deletes the
old link best-effort — whatever the transport outcome of the delete
(`deleteOk`), the result of `send_wake_up_link` is the same: the delete
result is discarded (never propagated; the return type carries no error),
the replacement button message is still sent, and its id is recorded as
the new link pointer. -/
theorem wake_up_delete_is_best_effort (chat : Int) (oldId : Nat) (st : BotState)
    (h : get_last_link st = some oldId) (h0 : oldId ≠ 0) :
    ∀ deleteOk : Bool,
      send_wake_up_link deleteOk chat st =
        (st.counter + 1,
         { st with counter := st.counter + 1,
                   config := { st.config with lastLinkMessageId := some (st.counter + 1) } },
         [.acquire true, .apiDelete chat oldId,
          .acquire false, .apiSendKeyboard chat (st.counter + 1) wakeUpLinkText]) := by
  intro deleteOk
  unfold send_wake_up_link
  rw [h]
  simp [h0, api_delete_message, api_send_inline_keyboard, get_next_mock_message_id,
    set_last_link]

/-- Witness for C1: a concrete `LinkActive(42)` state, exercised with a
failing delete. -/
theorem wake_up_delete_is_best_effort_witness :
    send_wake_up_link false 7 ⟨⟨false, false, [], some 42⟩, [], 1000, "t"⟩ =
      (1001, ⟨⟨false, false, [], some 1001⟩, [], 1001, "t"⟩,
       [.acquire true, .apiDelete 7 42,
        .acquire false, .apiSendKeyboard 7 1001 wakeUpLinkText]) :=
  wake_up_delete_is_best_effort 7 42 ⟨⟨false, false, [], some 42⟩, [], 1000, "t"⟩
    (by decide) (by decide) false

/-- C5: two consecutive wake-up sends from `NoLinkActive` record the
second id as the live link; the combined trace holds exactly one delete
(of the first id) and exactly two button-message sends, so at most one
wake-up link remains live. -/
theorem wake_up_send_twice_one_live_link (d1 d2 : Bool) (chat : Int) (st : BotState)
    (h : get_last_link st = none) :
    get_last_link (send_wake_up_link d2 chat (send_wake_up_link d1 chat st).2.1).2.1 =
        some (send_wake_up_link d2 chat (send_wake_up_link d1 chat st).2.1).1
    ∧ (send_wake_up_link d1 chat st).1 = st.counter + 1
    ∧ (send_wake_up_link d2 chat (send_wake_up_link d1 chat st).2.1).1 = st.counter + 2
    ∧ ((send_wake_up_link d1 chat st).2.2 ++
        (send_wake_up_link d2 chat (send_wake_up_link d1 chat st).2.1).2.2).filter
          (fun e => match e with | .apiDelete _ _ => true | _ => false) =
        [.apiDelete chat (st.counter + 1)]
    ∧ (((send_wake_up_link d1 chat st).2.2 ++
        (send_wake_up_link d2 chat (send_wake_up_link d1 chat st).2.1).2.2).filter
          (fun e => match e with | .apiSendKeyboard _ _ _ => true | _ => false)).length = 2 := by
  have k1 : send_wake_up_link d1 chat st =
      (st.counter + 1,
       { st with counter := st.counter + 1,
                 config := { st.config with lastLinkMessageId := some (st.counter + 1) } },
       [.acquire false, .apiSendKeyboard chat (st.counter + 1) wakeUpLinkText]) := by
    unfold send_wake_up_link
    rw [h]
    simp [api_send_inline_keyboard, get_next_mock_message_id, set_last_link]
  have k2 : send_wake_up_link d2 chat (send_wake_up_link d1 chat st).2.1 =
      (st.counter + 2,
       { st with counter := st.counter + 2,
                 config := { st.config with lastLinkMessageId := some (st.counter + 2) } },
       [.acquire true, .apiDelete chat (st.counter + 1),
        .acquire false, .apiSendKeyboard chat (st.counter + 2) wakeUpLinkText]) := by
    rw [k1]
    unfold send_wake_up_link
    simp [get_last_link, api_delete_message, api_send_inline_keyboard,
      get_next_mock_message_id, set_last_link]
  rw [k2, k1]
  refine ⟨rfl, rfl, rfl, ?_, ?_⟩ <;> simp [List.filter, get_last_link]

/-- Witness for C5: concrete double send from a fresh state. -/
theorem wake_up_send_twice_witness :
    get_last_link (send_wake_up_link true 7
        (send_wake_up_link true 7 ⟨⟨false, false, [], none⟩, [], 1000, "t"⟩).2.1).2.1 =
      some 1002 := by
  have h := wake_up_send_twice_one_live_link true true 7
    ⟨⟨false, false, [], none⟩, [], 1000, "t"⟩ (by decide)
  rw [h.1, h.2.2.1]

/-- C7: every dispatch-facade operation acquires the rate limiter with
its call class first and only then delegates to the transport:
`api_send_message`, `api_send_document` and `api_send_inline_keyboard`
acquire the primary class (`acquire false`), `api_delete_message`,
`api_edit_message_reply_markup` and `api_leave_chat` the internal class
(`acquire true`); in every trace the acquire is the head and everything
after it is transport delegation. -/
theorem facade_acquires_rate_limit_first :
    (∀ (chat : Int) (text : String) (st : BotState), ∃ rest,
        (api_send_message chat text st).2.2 = Event.acquire false :: rest
        ∧ ∀ e ∈ rest, e.isTransport = true)
    ∧ (∀ (chat : Int) (fn : String) (st : BotState),
        (api_send_document chat fn st).2.2 = [Event.acquire false, Event.apiSendDocument chat fn])
    ∧ (∀ (chat : Int) (text : String) (st : BotState),
        (api_send_inline_keyboard chat text st).2.2 =
          [Event.acquire false, Event.apiSendKeyboard chat (st.counter + 1) text])
    ∧ (∀ (deleteOk : Bool) (chat : Int) (msgId : Nat) (st : BotState),
        (api_delete_message deleteOk chat msgId st).2.2 =
          [Event.acquire true, Event.apiDelete chat msgId])
    ∧ (∀ (chat : Int) (msgId : Nat) (st : BotState),
        (api_edit_message_reply_markup chat msgId st).2.2 =
          [Event.acquire true, Event.apiEditMarkup chat msgId])
    ∧ (∀ (chat : Int) (st : BotState),
        (api_leave_chat chat st).2.2 = [Event.acquire true, Event.apiLeaveChat chat]) := by
  refine ⟨?_, fun _ _ _ => rfl, fun _ _ _ => rfl, fun _ _ _ _ => rfl,
    fun _ _ _ => rfl, fun _ _ => rfl⟩
  intro chat text st
  rw [api_send_message_eq]
  refine ⟨_, rfl, ?_⟩
  intro e he
  simp only [List.mem_map] at he
  obtain ⟨p, _, rfl⟩ := he
  rfl

/-- C9: a simulated transient failure during task execution is recovered,
not propagated: the operation returns the failure result `false` (its
type has no error channel, so nothing is raised to the caller), appends
to the persisted log exactly one FailedTask record carrying the
timestamp, chat id, message id, reason and content preview, and notifies
the operator with the failure message. -/
theorem transient_failure_appends_record_and_notifies
    (chat : Int) (mid : Nat) (text : String) (st : BotState) :
    simulate_task_execution true chat mid text false st =
      (false,
       { st with
           failedTasks := st.failedTasks ++ [{
             timestamp := st.now
             chat_id := chat
             message_id := mid
             reason := "Simulated External API Timeout or Processing Error."
             content_preview :=
               if clean_message_text st text ≠ "" then
                 (clean_message_text st text).take 30 ++ "..."
               else "[No content]" }]
           counter := st.counter +
             (split_long_message ("⚠️ **Task failed.** Reason: " ++
               "Simulated External API Timeout or Processing Error." ++
               ". It has been added to the `/failed` list.")).length },
       Event.acquire false ::
         ((List.range' (st.counter + 1)
             (split_long_message ("⚠️ **Task failed.** Reason: " ++
               "Simulated External API Timeout or Processing Error." ++
               ". It has been added to the `/failed` list.")).length).zip
            (split_long_message ("⚠️ **Task failed.** Reason: " ++
               "Simulated External API Timeout or Processing Error." ++
               ". It has been added to the `/failed` list."))).map
           (fun p => Event.apiSendChunk chat p.1 p.2)) := by
  simp [simulate_task_execution, load_failed_tasks, save_failed_tasks,
    api_send_message_eq]

/-- C10: a message whose sender (rendered with `str`) differs from the
owner id triggers exactly one unauthorized-access notice and an early
return: the stored state is returned untouched, before any command
routing; hence two runs on inputs that differ only in a non-owner
message leave identical stored state. -/
theorem unauthorized_message_noninterference
    (owner : String) (m mAlt : Message) (st : BotState)
    (h : pyStr m.from_user_id ≠ owner) (hAlt : pyStr mAlt.from_user_id ≠ owner) :
    handle_incoming_message owner m st =
      (st, [.botSend m.chat_id "🔒 Unauthorized access denied."])
    ∧ (handle_incoming_message owner m st).1 = (handle_incoming_message owner mAlt st).1 := by
  have k : ∀ m' : Message, pyStr m'.from_user_id ≠ owner →
      handle_incoming_message owner m' st =
        (st, [.botSend m'.chat_id "🔒 Unauthorized access denied."]) := by
    intro m' h'
    unfold handle_incoming_message
    rw [if_pos h']
  refine ⟨k m h, ?_⟩
  rw [k m h, k mAlt hAlt]

/-- Witness for C10: a concrete non-owner sender is bounced and the state
survives unchanged. -/
theorem unauthorized_message_witness :
    handle_incoming_message "12345678"
        ⟨7, some 999, some "/settings", none, false, none, none, none⟩
        ⟨⟨false, false, [], none⟩, [], 1000, "t"⟩ =
      (⟨⟨false, false, [], none⟩, [], 1000, "t"⟩,
       [.botSend 7 "🔒 Unauthorized access denied."]) :=
  (unauthorized_message_noninterference "12345678"
    ⟨7, some 999, some "/settings", none, false, none, none, none⟩
    ⟨7, some 998, none, none, false, none, none, none⟩
    ⟨⟨false, false, [], none⟩, [], 1000, "t"⟩
    (by decide) (by decide)).1

/-- Counterexample to C6: handling an oversized document from the owner
does change the persisted failed-task log — `handle_incoming_message`
records the blocked payload as a manual failed task, so the log before
and after handling differs. -/
theorem oversize_payload_mutates_log_counterexample :
    ¬ ((handle_incoming_message "12345678"
        ⟨7, some 12345678, none, some "Very large document", false, none, none, some 30000000⟩
        ⟨⟨false, false, [], none⟩, [], 1000, "t"⟩).1.failedTasks =
      (⟨⟨false, false, [], none⟩, [], 1000, "t"⟩ : BotState).failedTasks) := by
  decide

/-- When the message-type filter admits a message, it emits no events:
every `(true, _)` branch of `check_allowed_message_type` carries the
empty trace. -/
theorem check_allowed_true_no_events (chat : Int) (s1 s2 s3 s4 : Bool)
    (text : String) (st : BotState) :
    (check_allowed_message_type chat s1 s2 s3 s4 text st).1 = true →
    (check_allowed_message_type chat s1 s2 s3 s4 text st).2 = [] := by
  unfold check_allowed_message_type
  split_ifs <;> simp

/-- C6 (amended): the task-execution path does short-circuit on an
oversized payload — it sends the immediate failure report (the whole
trace is the rate-limited chunked send of the resource-exhaustion
message, and that message has at least one chunk), returns `false`, and
leaves the failed-task log and config untouched (only the message-id
counter moves); the message handler, however, sends its failure report
and then records the blocked payload as one `MANUAL ENTRY` failed task
before returning, so there the log grows by exactly that record and the
trace is the failure report followed by the manual-add confirmation. -/
theorem oversize_payload_short_circuit_amended
    (failRoll : Bool) (chat : Int) (mid : Nat) (text : String) (st : BotState)
    (owner : String) (m : Message) (st2 : BotState)
    (hauth : pyStr m.from_user_id = owner)
    (hallow : (check_allowed_message_type m.chat_id m.hasSticker m.photoSize.isSome
        m.videoSize.isSome m.documentSize.isSome (pyOrStr m.text m.caption) st2).1 = true)
    (hlarge : (safely_extract_content m).2.2.2.2.2 = true) :
    simulate_task_execution failRoll chat mid text true st =
      (false,
       { st with counter := st.counter +
           (split_long_message ("🛑 **FAILURE:** " ++
             ("RESOURCE EXHAUSTION BLOCK: Incoming file exceeds " ++
              toString MAX_FILE_SIZE_MB ++ "MB safety limit."))).length },
       Event.acquire false ::
         ((List.range' (st.counter + 1)
             (split_long_message ("🛑 **FAILURE:** " ++
               ("RESOURCE EXHAUSTION BLOCK: Incoming file exceeds " ++
                toString MAX_FILE_SIZE_MB ++ "MB safety limit."))).length).zip
            (split_long_message ("🛑 **FAILURE:** " ++
              ("RESOURCE EXHAUSTION BLOCK: Incoming file exceeds " ++
               toString MAX_FILE_SIZE_MB ++ "MB safety limit.")))).map
           (fun p => Event.apiSendChunk chat p.1 p.2))
    ∧ split_long_message ("🛑 **FAILURE:** " ++
        ("RESOURCE EXHAUSTION BLOCK: Incoming file exceeds " ++
         toString MAX_FILE_SIZE_MB ++ "MB safety limit.")) ≠ []
    ∧ handle_incoming_message owner m st2 =
        ({ st2 with failedTasks := st2.failedTasks ++ [{
            timestamp := st2.now
            chat_id := m.chat_id
            message_id := 0
            reason := "MANUAL ENTRY"
            content_preview :=
              (if pyOrStr m.text m.caption ≠ "" then pyOrStr m.text m.caption
               else "LARGE FILE BLOCKED").take 30 ++ "..." }] },
         [.botSend m.chat_id ("🛑 **FAILURE:** Incoming file exceeds " ++
            toString MAX_FILE_SIZE_MB ++ "MB safety limit."),
          .botSend m.chat_id ("✅ Manual task added: `" ++
            (if pyOrStr m.text m.caption ≠ "" then pyOrStr m.text m.caption
             else "LARGE FILE BLOCKED").take 30 ++ "...`")]) := by
  refine ⟨?_, split_long_message_ne_nil _, ?_⟩
  · simp [simulate_task_execution, api_send_message_eq]
  · have hevs := check_allowed_true_no_events m.chat_id m.hasSticker m.photoSize.isSome
      m.videoSize.isSome m.documentSize.isSome (pyOrStr m.text m.caption) st2 hallow
    unfold handle_incoming_message
    rw [if_neg (by simp [hauth])]
    simp only [safely_extract_content] at hlarge ⊢
    rw [hallow]
    simp only [not_true, Bool.not_eq_true, ite_false, if_false, hlarge]
    simp [add_failed_task_manual, load_failed_tasks, save_failed_tasks, hevs]

set_option maxRecDepth 4000 in
/-- Witness for the amended C6: the concrete oversized document yields
the failure report, the manual-add confirmation, and exactly one
appended manual record. -/
theorem oversize_payload_short_circuit_witness :
    handle_incoming_message "12345678"
        ⟨7, some 12345678, none, some "Very large document", false, none, none, some 30000000⟩
        ⟨⟨false, false, [], none⟩, [], 1000, "t"⟩ =
      (⟨⟨false, false, [], none⟩,
        [{ timestamp := "t", chat_id := 7, message_id := 0, reason := "MANUAL ENTRY",
           content_preview := "Very large document..." }], 1000, "t"⟩,
       [.botSend 7 "🛑 **FAILURE:** Incoming file exceeds 20MB safety limit.",
        .botSend 7 "✅ Manual task added: `Very large document...`"]) := by
  have h := (oversize_payload_short_circuit_amended false 7 3 "x"
    ⟨⟨false, false, [], none⟩, [], 1000, "t"⟩ "12345678"
    ⟨7, some 12345678, none, some "Very large document", false, none, none, some 30000000⟩
    ⟨⟨false, false, [], none⟩, [], 1000, "t"⟩
    (by decide) (by decide) (by decide)).2.2
  rw [h]
  decide

theorem lastLink_api_send_message (chat : Int) (text : String) (st : BotState) :
    (api_send_message chat text st).2.1.config.lastLinkMessageId =
      st.config.lastLinkMessageId := by
  rw [api_send_message_eq]

theorem lastLink_add_failed_task (chat : Int) (content : String) (st : BotState) :
    (add_failed_task_manual chat content st).1.config.lastLinkMessageId =
      st.config.lastLinkMessageId := rfl

theorem lastLink_remove_failed_task (chat : Int) (indexStr : String) (st : BotState) :
    (remove_failed_task chat indexStr st).1.config.lastLinkMessageId =
      st.config.lastLinkMessageId := by
  unfold remove_failed_task
  rcases pyParseInt indexStr with _ | n
  · rfl
  · dsimp only
    split
    · rfl
    · rfl

theorem lastLink_add_cleanup_string (chat : Int) (phrase : String) (st : BotState) :
    (add_cleanup_string chat phrase st).1.config.lastLinkMessageId =
      st.config.lastLinkMessageId := rfl

theorem lastLink_remove_cleanup_string (chat : Int) (indexStr : String) (st : BotState) :
    (remove_cleanup_string chat indexStr st).1.config.lastLinkMessageId =
      st.config.lastLinkMessageId := by
  unfold remove_cleanup_string
  rcases pyParseInt indexStr with _ | n
  · rfl
  · dsimp only
    split
    · rfl
    · rfl

theorem lastLink_set_bool_config (st : BotState) (k : BoolKey) (v : Bool) :
    (set_bool_config st k v).config.lastLinkMessageId =
      st.config.lastLinkMessageId := by
  cases k <;> rfl

theorem lastLink_simulate_task_execution (failRoll : Bool) (chat : Int) (mid : Nat)
    (text : String) (isLargeFile : Bool) (st : BotState) :
    (simulate_task_execution failRoll chat mid text isLargeFile st).2.1.config.lastLinkMessageId =
      st.config.lastLinkMessageId := by
  unfold simulate_task_execution
  split
  · rw [lastLink_api_send_message]
  · dsimp only
    split
    · rw [lastLink_api_send_message]
      rfl
    · rw [lastLink_api_send_message]

theorem lastLink_handle_callback_query (q : CallbackQuery) (st : BotState) :
    (handle_callback_query q st).1.config.lastLinkMessageId =
      st.config.lastLinkMessageId := by
  unfold handle_callback_query
  rcases q.data with _ | data
  · rfl
  · dsimp only
    split
    · rfl
    · rcases settingsMapKey data with _ | key
      · rfl
      · dsimp only
        rw [lastLink_set_bool_config]

theorem lastLink_route_command (chat : Int) (text : String)
    (command : Option String) (st : BotState) :
    (route_command chat text command st).1.config.lastLinkMessageId =
      st.config.lastLinkMessageId := by
  unfold route_command
  by_cases h1 : command = some "/start" ∨ command = some "/help"
  · rw [if_pos h1]
  rw [if_neg h1]
  by_cases h2 : command = some "/settings"
  · rw [if_pos h2]
  rw [if_neg h2]
  by_cases h3 : command = some "/run_task"
  · rw [if_pos h3]
  rw [if_neg h3]
  by_cases h4 : command = some "/finish"
  · rw [if_pos h4]
  rw [if_neg h4]
  by_cases h5 : command = some "/log"
  · rw [if_pos h5]
  rw [if_neg h5]
  by_cases h6 : command = some "/failed"
  · rw [if_pos h6]
  rw [if_neg h6]
  by_cases h7 : command = some "/add_task"
  · rw [if_pos h7]
    rcases hA : commandArg text with _ | content
    · rfl
    · exact lastLink_add_failed_task chat content st
  rw [if_neg h7]
  by_cases h8 : command = some "/remove_task"
  · rw [if_pos h8]
    rcases hA : commandArg text with _ | indexStr
    · rfl
    · exact lastLink_remove_failed_task chat indexStr st
  rw [if_neg h8]
  by_cases h9 : command = some "/list_cleanup"
  · rw [if_pos h9]
  rw [if_neg h9]
  by_cases h10 : command = some "/add_cleanup"
  · rw [if_pos h10]
    rcases hA : commandArg text with _ | phrase
    · rfl
    · exact lastLink_add_cleanup_string chat phrase st
  rw [if_neg h10]
  by_cases h11 : command = some "/remove_cleanup"
  · rw [if_pos h11]
    rcases hA : commandArg text with _ | indexStr
    · rfl
    · exact lastLink_remove_cleanup_string chat indexStr st
  rw [if_neg h11]

theorem lastLink_handle_incoming_message (owner : String) (m : Message) (st : BotState) :
    (handle_incoming_message owner m st).1.config.lastLinkMessageId =
      st.config.lastLinkMessageId := by
  unfold handle_incoming_message
  generalize safely_extract_content m = p
  obtain ⟨text, s1, s2, s3, s4, s5⟩ := p
  generalize check_allowed_message_type m.chat_id s1 s2 s3 s4 text st = q
  obtain ⟨allowed, fevs⟩ := q
  dsimp only
  repeat' split
  all_goals first
    | rfl
    | exact lastLink_add_failed_task _ _ _
    | exact lastLink_route_command _ _ _ _

/-- C8: `send_wake_up_link` is the only write path to
`LAST_LINK_MESSAGE_ID`: the message handler on every input (covering the
command routing, including the whole-record rewrites of the
cleanup-string add/remove operations), the settings-toggle callback on
every input, the cleanup operations themselves, both failed-task
operations and task execution all leave the stored value of
`LAST_LINK_MESSAGE_ID` unchanged. -/
theorem only_wake_up_writes_last_link :
    (∀ (owner : String) (m : Message) (st : BotState),
        (handle_incoming_message owner m st).1.config.lastLinkMessageId =
          st.config.lastLinkMessageId)
    ∧ (∀ (q : CallbackQuery) (st : BotState),
        (handle_callback_query q st).1.config.lastLinkMessageId =
          st.config.lastLinkMessageId)
    ∧ (∀ (chat : Int) (phrase : String) (st : BotState),
        (add_cleanup_string chat phrase st).1.config.lastLinkMessageId =
          st.config.lastLinkMessageId)
    ∧ (∀ (chat : Int) (indexStr : String) (st : BotState),
        (remove_cleanup_string chat indexStr st).1.config.lastLinkMessageId =
          st.config.lastLinkMessageId)
    ∧ (∀ (chat : Int) (content : String) (st : BotState),
        (add_failed_task_manual chat content st).1.config.lastLinkMessageId =
          st.config.lastLinkMessageId)
    ∧ (∀ (chat : Int) (indexStr : String) (st : BotState),
        (remove_failed_task chat indexStr st).1.config.lastLinkMessageId =
          st.config.lastLinkMessageId)
    ∧ (∀ (failRoll : Bool) (chat : Int) (mid : Nat) (text : String)
          (isLargeFile : Bool) (st : BotState),
        (simulate_task_execution failRoll chat mid text isLargeFile st).2.1.config.lastLinkMessageId =
          st.config.lastLinkMessageId) :=
  ⟨lastLink_handle_incoming_message, lastLink_handle_callback_query,
   lastLink_add_cleanup_string, lastLink_remove_cleanup_string,
   lastLink_add_failed_task, lastLink_remove_failed_task,
   lastLink_simulate_task_execution⟩
